import Mathlib

/-!
Wish wall backend: like toggle, owner-only delete and pagination

A shallow embedding of `internal/app/handler/wish.go`.

The handlers talk to a relational store through GORM.  The store is embedded as
a pair of tables (`wishes`, `likes`), every GORM call used by the handlers is a
function on it, and every GORM call may fail: which calls fail in one request is
an explicit argument (`Faults`).  A handler is a function from the store and the
request to the store after the request and the JSON response.
-/

namespace WishWall

/-! ## Response codes and payloads -/

/-- The codes of package `apperr` that `wish.go` uses.  Their numeric values are
declared outside the handler, only their names matter here. -/
inductive Code where
  | SUCCESS
  | ERROR_PARAM_INVALID
  | ERROR_WISH_NOT_FOUND
  | ERROR_SERVER_ERROR
  | ERROR_UNAUTHORIZED
  | ERROR_LIKE_FAILED
deriving DecidableEq, Repr

/-- The `data` member of a response: `gin.H{}` or a `LikeToggleResponse`. -/
inductive Data where
  | empty
  | LikeToggleResponse (Liked : Bool)
deriving DecidableEq, Repr

/-- The JSON body written by `c.JSON` (the human readable message is left out). -/
structure Response where
  code : Code
  data : Data
deriving DecidableEq, Repr

/-! ## Tables -/

/-- Modelled from the spec: `model.Wish` is declared outside the handler.  The
fields the handlers read or write are kept: the identity, the owner, the
denormalised like counter, and the soft-delete mark that `db.Delete` sets
(`DeletedAt`, see the comment in `DeleteWish`).  `like_count` is changed by SQL
arithmetic in the store, it is an unbounded integer here. -/
structure Wish where
  ID : Nat
  UserID : Nat
  LikeCount : Int
  Deleted : Bool
deriving DecidableEq, Repr

/-- Modelled from the spec: `model.Like` is declared outside the handler.  A
like record is the pair `(wishID, userID)`; records are removed, not
soft-marked.  Rows are kept in primary-key order, the position of a row stands
for its primary key. -/
structure Like where
  WishID : Nat
  UserID : Nat
deriving DecidableEq, Repr

/-- The persistent store behind `*gorm.DB`.  `likeUnique` says whether the
`likes` table carries a uniqueness constraint on `(wish_id, user_id)`; the
schema is declared outside the handler, so both possibilities are kept. -/
structure Store where
  wishes : List Wish
  likes : List Like
  likeUnique : Bool
deriving DecidableEq, Repr

/-- Errors a GORM call can return. -/
inductive DBError where
  | ErrRecordNotFound
  | ErrDuplicatedKey
  | other
deriving DecidableEq, Repr

/-- Which storage calls of one request fail (connectivity, engine errors).
One flag per GORM call site of the handlers. -/
structure Faults where
  firstWish : Bool
  firstLike : Bool
  deleteLike : Bool
  createLike : Bool
  updateColumn : Bool
  commit : Bool
  deleteWish : Bool
deriving DecidableEq, Repr

/-- A request during which no storage call fails. -/
def noFaults : Faults :=
  { firstWish := false, firstLike := false, deleteLike := false, createLike := false,
    updateColumn := false, commit := false, deleteWish := false }

/-! ## `strconv.ParseUint(s, 10, 64)` -/

/-- The two errors of `strconv`. -/
inductive NumError where
  | ErrSyntax
  | ErrRange
deriving DecidableEq, Repr

/-- Largest value of a 64-bit unsigned integer. -/
def maxUint64 : Nat := 2 ^ 64 - 1

/-- The digit loop of `strconv.ParseUint` for base 10 and bit size 64:
`cutoff = maxUint64/10 + 1`; a byte that is not a decimal digit is a syntax
error, a value that does not fit is a range error. -/
def ParseUintLoop : List Char → Nat → Except NumError Nat
  | [], n => .ok n
  | c :: cs, n =>
    if '0' ≤ c ∧ c ≤ '9' then
      let d := c.toNat - '0'.toNat
      if n ≥ maxUint64 / 10 + 1 then .error .ErrRange
      else
        let n10 := n * 10 % 2 ^ 64
        let n1 := (n10 + d) % 2 ^ 64
        if n1 < n10 ∨ n1 > maxUint64 then .error .ErrRange
        else ParseUintLoop cs n1
    else .error .ErrSyntax

/-- The call `strconv.ParseUint(idStr, 10, 64)`: the empty string is a syntax
error. -/
def ParseUint (s : String) : Except NumError Nat :=
  if s.data = [] then .error .ErrSyntax else ParseUintLoop s.data 0

/-! ## GORM calls used by the handlers -/

/-- Rows selected by `WHERE id = ? AND deleted_at IS NULL`. -/
def wishMatches (id : Nat) (w : Wish) : Bool := w.ID == id && !w.Deleted

/-- Rows selected by `WHERE wish_id = ? AND user_id = ?`. -/
def likeMatches (wishID userID : Nat) (l : Like) : Bool :=
  l.WishID == wishID && l.UserID == userID

/-- The wish row with this identity that is not soft-deleted, if any. -/
def findWish (wishes : List Wish) (id : Nat) : Option Wish :=
  wishes.find? (wishMatches id)

/-- The first like row of the pair, if any. -/
def findLike (likes : List Like) (wishID userID : Nat) : Option Like :=
  likes.find? (likeMatches wishID userID)

/-- The call `db.First(&wish, wishID)`. -/
def firstWish (db : Store) (f : Faults) (wishID : Nat) : Except DBError Wish :=
  if f.firstWish then .error .other
  else match findWish db.wishes wishID with
    | some w => .ok w
    | none => .error .ErrRecordNotFound

/-- The call `db.Where("wish_id = ? AND user_id = ?", wishID, userID).First(&existing)`. -/
def firstLike (db : Store) (f : Faults) (wishID userID : Nat) : Except DBError Like :=
  if f.firstLike then .error .other
  else match findLike db.likes wishID userID with
    | some l => .ok l
    | none => .error .ErrRecordNotFound

/-- The call `tx.Delete(&existing)`: the row that was read is removed (a row
that is no longer there removes nothing and is no error). -/
def deleteLike (tx : Store) (f : Faults) (existing : Like) : Except DBError Store :=
  if f.deleteLike then .error .other
  else .ok { tx with likes := tx.likes.erase existing }

/-- The call `tx.Create(&newLike)`: a new row at the end of the table; with a
uniqueness constraint a second row of the same pair is refused. -/
def createLike (tx : Store) (f : Faults) (newLike : Like) : Except DBError Store :=
  if f.createLike then .error .other
  else if tx.likeUnique && tx.likes.any (likeMatches newLike.WishID newLike.UserID) then
    .error .ErrDuplicatedKey
  else .ok { tx with likes := tx.likes ++ [newLike] }

/-- The row update of `like_count = like_count + delta`. -/
def bumpWish (id : Nat) (delta : Int) (w : Wish) : Wish :=
  if wishMatches id w then { w with LikeCount := w.LikeCount + delta } else w

/-- The call `tx.Model(&model.Wish{}).Where("id = ?", wishID).UpdateColumn("like_count",
gorm.Expr("like_count + ?", delta))`: a relative update of every selected row. -/
def updateLikeCount (tx : Store) (f : Faults) (wishID : Nat) (delta : Int) :
    Except DBError Store :=
  if f.updateColumn then .error .other
  else .ok { tx with wishes := tx.wishes.map (bumpWish wishID delta) }

/-- The row update of a soft delete. -/
def markDeleted (id : Nat) (w : Wish) : Wish :=
  if wishMatches id w then { w with Deleted := true } else w

/-- The call `db.Delete(&wish)`: a soft delete of the row that was read. -/
def softDeleteWish (db : Store) (f : Faults) (wish : Wish) : Except DBError Store :=
  if f.deleteWish then .error .other
  else .ok { db with wishes := db.wishes.map (markDeleted wish.ID) }

/-- The call `db.Transaction(fc)`: the closure runs on the transaction handle;
when it returns an error, or the commit fails, everything is rolled back. -/
def Transaction (db : Store) (f : Faults) (fc : Store → Except DBError Store) :
    Store × Option DBError :=
  match fc db with
  | .error e => (db, some e)
  | .ok tx => if f.commit then (db, some .other) else (tx, none)

/-! ## `LikeWish` -/

/-- What the read-only first half of `LikeWish` decides: an early response, or
one of the two transactions. -/
inductive Lookup where
  | done (r : Response)
  | unlike (existing : Like) (wishID : Nat)
  | like (wishID userID : Nat)
deriving DecidableEq, Repr

/-- First half of `LikeWish` (parameter check, wish lookup, like lookup).
`uint(wishID64)` is the 64-bit conversion. -/
def LikeWishLookup (db : Store) (f : Faults) (idStr : String) (userID : Nat) : Lookup :=
  match ParseUint idStr with
  | .error _ => .done ⟨.ERROR_PARAM_INVALID, .empty⟩
  | .ok wishID64 =>
    let wishID := wishID64 % 2 ^ 64
    match firstWish db f wishID with
    | .error .ErrRecordNotFound => .done ⟨.ERROR_WISH_NOT_FOUND, .empty⟩
    | .error _ => .done ⟨.ERROR_SERVER_ERROR, .empty⟩
    | .ok _ =>
      match firstLike db f wishID userID with
      | .ok existing => .unlike existing wishID
      | .error .ErrRecordNotFound => .like wishID userID
      | .error _ => .done ⟨.ERROR_SERVER_ERROR, .empty⟩

/-- The unlike transaction of `LikeWish`: delete the record, then
`like_count - 1`. -/
def LikeWishUnlike (db : Store) (f : Faults) (existing : Like) (wishID : Nat) :
    Store × Response :=
  match Transaction db f (fun tx =>
      match deleteLike tx f existing with
      | .error e => .error e
      | .ok tx1 => updateLikeCount tx1 f wishID (-1)) with
  | (db1, some _) => (db1, ⟨.ERROR_LIKE_FAILED, .empty⟩)
  | (db1, none) => (db1, ⟨.SUCCESS, .LikeToggleResponse false⟩)

/-- The like transaction of `LikeWish`: create the record, then
`like_count + 1`.  (The source reads `db.Transaction(...).Error` here; it is
taken as the error returned by the transaction, as in the unlike branch.) -/
def LikeWishLike (db : Store) (f : Faults) (wishID userID : Nat) : Store × Response :=
  match Transaction db f (fun tx =>
      match createLike tx f { WishID := wishID, UserID := userID } with
      | .error e => .error e
      | .ok tx1 => updateLikeCount tx1 f wishID 1) with
  | (db1, some _) => (db1, ⟨.ERROR_LIKE_FAILED, .empty⟩)
  | (db1, none) => (db1, ⟨.SUCCESS, .LikeToggleResponse true⟩)

/-- The handler `LikeWish` run on its own: the lookup and the transaction see
the same store. -/
def LikeWish (db : Store) (f : Faults) (idStr : String) (userID : Nat) : Store × Response :=
  match LikeWishLookup db f idStr userID with
  | .done r => (db, r)
  | .unlike existing wishID => LikeWishUnlike db f existing wishID
  | .like wishID uid => LikeWishLike db f wishID uid

/-- One request to `LikeWish`. -/
structure Call where
  idStr : String
  userID : Nat
  faults : Faults

/-- A sequence of `LikeWish` requests served one after the other. -/
def runLikeWish (db : Store) : List Call → Store
  | [] => db
  | c :: cs => runLikeWish (LikeWish db c.faults c.idStr c.userID).1 cs

/-- The stored counter of a wish, as `db.First` would read it. -/
def likeCount (db : Store) (wishID : Nat) : Option Int :=
  (findWish db.wishes wishID).map (fun w => w.LikeCount)

/-- Number of like records of a wish. -/
def likesOfWish (db : Store) (wishID : Nat) : Nat :=
  db.likes.countP (fun l => l.WishID == wishID)

/-- Number of like records of a pair. -/
def likesOfPair (db : Store) (wishID userID : Nat) : Nat :=
  db.likes.countP (likeMatches wishID userID)

/-! ## `DeleteWish` -/

/-- The handler `DeleteWish`. -/
def DeleteWish (db : Store) (f : Faults) (idStr : String) (userID : Nat) : Store × Response :=
  match ParseUint idStr with
  | .error _ => (db, ⟨.ERROR_PARAM_INVALID, .empty⟩)
  | .ok wishID64 =>
    let wishID := wishID64 % 2 ^ 64
    match firstWish db f wishID with
    | .error .ErrRecordNotFound => (db, ⟨.ERROR_WISH_NOT_FOUND, .empty⟩)
    | .error _ => (db, ⟨.ERROR_SERVER_ERROR, .empty⟩)
    | .ok wish =>
      if wish.UserID ≠ userID then (db, ⟨.ERROR_UNAUTHORIZED, .empty⟩)
      else match softDeleteWish db f wish with
        | .error _ => (db, ⟨.ERROR_SERVER_ERROR, .empty⟩)
        | .ok db1 => (db1, ⟨.SUCCESS, .empty⟩)

/-! ## Pagination of `GetPublicWishes` and `GetMyWishes` -/

/-- A Go `int` (64-bit) after wrap-around. -/
def wrapInt64 (x : Int) : Int := (x + 2 ^ 63) % 2 ^ 64 - 2 ^ 63

/-- What a list handler hands to the query (`Limit`, `Offset`) and reports
(`page`). -/
structure Paging where
  page : Int
  pageSize : Int
  offset : Int
deriving DecidableEq, Repr

/-- The pagination block of `GetPublicWishes`, from the two values returned by
`strconv.Atoi`. -/
def GetPublicWishesPaging (page pageSize : Int) : Paging :=
  let page := if page < 1 then 1 else page
  let pageSize := if pageSize < 1 ∨ pageSize > 100 then 20 else pageSize
  { page := page, pageSize := pageSize, offset := wrapInt64 (wrapInt64 (page - 1) * pageSize) }

/-- The pagination block of `GetMyWishes`, from the two values returned by
`strconv.Atoi`. -/
def GetMyWishesPaging (page pageSize : Int) : Paging :=
  let page := if page < 1 then 1 else page
  let pageSize := if pageSize < 1 ∨ pageSize > 100 then 20 else pageSize
  { page := page, pageSize := pageSize, offset := wrapInt64 (wrapInt64 (page - 1) * pageSize) }

/-- The values a Go `int` can hold. -/
def isInt64 (x : Int) : Prop := -2 ^ 63 ≤ x ∧ x < 2 ^ 63

instance (x : Int) : Decidable (isInt64 x) := by unfold isInt64; infer_instance

/-! ## Two requests in flight -/

/-- Second half of `LikeWish`: what the handler does once its lookup has
decided, on the store as it is by then. -/
def LikeWishFinish (db : Store) (f : Faults) : Lookup → Store × Response
  | .done r => (db, r)
  | .unlike existing wishID => LikeWishUnlike db f existing wishID
  | .like wishID uid => LikeWishLike db f wishID uid

/-- How far one request has got through `LikeWish`. -/
inductive Progress where
  | arrived
  | decided (lk : Lookup)
  | answered (r : Response)
deriving DecidableEq, Repr

/-- Two requests of the same user on the same wish over one store. -/
structure Race where
  db : Store
  first : Progress
  second : Progress
deriving DecidableEq, Repr

/-- One move of a request: its lookup (existence queries), then its
transaction.  The statements of one transaction take effect as a unit, so the
insert or delete and the counter update are one move. -/
def advance (db : Store) (f : Faults) (idStr : String) (userID : Nat) :
    Progress → Store × Progress
  | .arrived => (db, .decided (LikeWishLookup db f idStr userID))
  | .decided lk => ((LikeWishFinish db f lk).1, .answered (LikeWishFinish db f lk).2)
  | .answered r => (db, .answered r)

/-- Runs a schedule: `false` moves the first request, `true` the second. -/
def runRace (f : Faults) (idStr : String) (userID : Nat) : List Bool → Race → Race
  | [], r => r
  | false :: s, r =>
    runRace f idStr userID s
      { r with db := (advance r.db f idStr userID r.first).1,
               first := (advance r.db f idStr userID r.first).2 }
  | true :: s, r =>
    runRace f idStr userID s
      { r with db := (advance r.db f idStr userID r.second).1,
               second := (advance r.db f idStr userID r.second).2 }

/-! ## Stores used in the worked scenarios -/

/-- The store after a like that went through. -/
def likedStore (db : Store) (wishID userID : Nat) : Store :=
  { db with wishes := db.wishes.map (bumpWish wishID 1),
            likes := db.likes ++ [{ WishID := wishID, UserID := userID }] }

/-- The store after an unlike that went through. -/
def unlikedStore (db : Store) (wishID userID : Nat) : Store :=
  { db with wishes := db.wishes.map (bumpWish wishID (-1)),
            likes := db.likes.erase { WishID := wishID, UserID := userID } }

/-- Scenario A: wish 1 of user 7 with no likes; the table has a uniqueness
constraint. -/
def scenarioA : Store :=
  { wishes := [{ ID := 1, UserID := 7, LikeCount := 0, Deleted := false }],
    likes := [], likeUnique := true }

/-- Scenario C: wish 1 with five distinct likers and `likeCount = 5`, next to
a second wish. -/
def scenarioC : Store :=
  { wishes := [{ ID := 1, UserID := 7, LikeCount := 5, Deleted := false },
               { ID := 2, UserID := 8, LikeCount := 1, Deleted := false }],
    likes := [⟨1, 11⟩, ⟨1, 12⟩, ⟨2, 11⟩, ⟨1, 13⟩, ⟨1, 14⟩, ⟨1, 15⟩], likeUnique := false }

/-- Scenario A after another request of user 5 has inserted its record and
committed. -/
def scenarioRaced : Store :=
  { wishes := [{ ID := 1, UserID := 7, LikeCount := 1, Deleted := false }],
    likes := [⟨1, 5⟩], likeUnique := true }

/-- Scenario A on a `likes` table without a uniqueness constraint. -/
def scenarioNoIndex : Store :=
  { wishes := [{ ID := 1, UserID := 7, LikeCount := 0, Deleted := false }],
    likes := [], likeUnique := false }

/-- A request in which the counter update fails. -/
def updateFails : Faults := { noFaults with updateColumn := true }

/-- Three requests on wish 1: user 5 likes, user 6 likes, user 5 unlikes. -/
def threeCalls : List Call :=
  [⟨"1", 5, noFaults⟩, ⟨"1", 6, noFaults⟩, ⟨"1", 5, noFaults⟩]

/-! ## Facts about the storage calls -/

theorem ParseUintLoop_lt (cs : List Char) :
    ∀ n m, n < 2 ^ 64 → ParseUintLoop cs n = .ok m → m < 2 ^ 64 := by
  induction cs with
  | nil =>
    intro n m hn h
    simp only [ParseUintLoop, Except.ok.injEq] at h
    omega
  | cons c cs ih =>
    intro n m _ h
    simp only [ParseUintLoop] at h
    split_ifs at h
    exact ih _ m (Nat.mod_lt _ (by norm_num)) h

theorem ParseUint_lt {s : String} {m : Nat} (h : ParseUint s = .ok m) : m < 2 ^ 64 := by
  unfold ParseUint at h
  split_ifs at h
  exact ParseUintLoop_lt _ 0 m (by norm_num) h

theorem ParseUint_mod {s : String} {m : Nat} (h : ParseUint s = .ok m) : m % 2 ^ 64 = m :=
  Nat.mod_eq_of_lt (ParseUint_lt h)

theorem wishMatches_bumpWish (id id2 : Nat) (delta : Int) (w : Wish) :
    wishMatches id2 (bumpWish id delta w) = wishMatches id2 w := by
  unfold bumpWish
  split_ifs <;> rfl

theorem findWish_bump (ws : List Wish) (id id2 : Nat) (delta : Int) :
    findWish (ws.map (bumpWish id delta)) id2 = (findWish ws id2).map (bumpWish id delta) := by
  unfold findWish
  rw [List.find?_map]
  congr 2
  funext w
  exact wishMatches_bumpWish id id2 delta w

theorem findWish_matches {ws : List Wish} {id : Nat} {w : Wish} (h : findWish ws id = some w) :
    wishMatches id w = true :=
  List.find?_some h

theorem findLike_eq {ls : List Like} {w u : Nat} {l : Like} (h : findLike ls w u = some l) :
    l = ⟨w, u⟩ := by
  have hm : likeMatches w u l = true := List.find?_some h
  cases l
  simp only [likeMatches, Bool.and_eq_true, beq_iff_eq] at hm
  simp [hm.1, hm.2]

theorem findLike_mem {ls : List Like} {w u : Nat} {l : Like} (h : findLike ls w u = some l) :
    l ∈ ls :=
  List.mem_of_find?_eq_some h

theorem likeMatches_iff (w u : Nat) (l : Like) : likeMatches w u l = true ↔ l = ⟨w, u⟩ := by
  cases l
  simp [likeMatches]

theorem findLike_none_iff (ls : List Like) (w u : Nat) :
    findLike ls w u = none ↔ (⟨w, u⟩ : Like) ∉ ls := by
  unfold findLike
  rw [List.find?_eq_none]
  constructor
  · intro h hm
    exact h _ hm ((likeMatches_iff w u _).2 rfl)
  · intro h x hx hp
    rw [(likeMatches_iff w u x).1 hp] at hx
    exact h hx

theorem any_likeMatches_of_none {ls : List Like} {w u : Nat} (h : findLike ls w u = none) :
    ls.any (likeMatches w u) = false := by
  rw [List.any_eq_false]
  exact List.find?_eq_none.1 h

theorem countP_erase_of_pos (p : Like → Bool) (l : Like) (hp : p l = true) :
    ∀ ls : List Like, l ∈ ls → (ls.erase l).countP p + 1 = ls.countP p := by
  intro ls
  induction ls with
  | nil => intro h; simp at h
  | cons a as ih =>
    intro h
    by_cases hal : a = l
    · subst hal
      simp [List.countP_cons, hp]
    · have hmem : l ∈ as := by
        rcases List.mem_cons.1 h with h1 | h1
        · exact absurd h1.symm hal
        · exact h1
      have hne : (a == l) = false := by simpa using hal
      rw [List.erase_cons, hne]
      simp only [Bool.false_eq_true, if_false, List.countP_cons]
      have := ih hmem
      omega

theorem countP_erase_of_neg (p : Like → Bool) (l : Like) (hp : p l = false) :
    ∀ ls : List Like, (ls.erase l).countP p = ls.countP p := by
  intro ls
  induction ls with
  | nil => simp
  | cons a as ih =>
    by_cases hal : a = l
    · subst hal
      simp [List.countP_cons, hp]
    · have hne : (a == l) = false := by simpa using hal
      rw [List.erase_cons, hne]
      simp only [Bool.false_eq_true, if_false, List.countP_cons, ih]

theorem LikeWishLike_fst (db : Store) (f : Faults) (w u : Nat) :
    (LikeWishLike db f w u).1 = db ∨
      ((LikeWishLike db f w u).1 = likedStore db w u ∧
        (LikeWishLike db f w u).2 = ⟨.SUCCESS, .LikeToggleResponse true⟩) := by
  unfold LikeWishLike Transaction createLike updateLikeCount likedStore
  by_cases h1 : f.createLike = true <;>
  by_cases h2 : (db.likeUnique && db.likes.any (likeMatches w u)) = true <;>
  by_cases h3 : f.updateColumn = true <;>
  by_cases h4 : f.commit = true <;> simp [h1, h2, h3, h4]

theorem LikeWishUnlike_fst (db : Store) (f : Faults) (w u : Nat) :
    (LikeWishUnlike db f ⟨w, u⟩ w).1 = db ∨
      ((LikeWishUnlike db f ⟨w, u⟩ w).1 = unlikedStore db w u ∧
        (LikeWishUnlike db f ⟨w, u⟩ w).2 = ⟨.SUCCESS, .LikeToggleResponse false⟩) := by
  unfold LikeWishUnlike Transaction deleteLike updateLikeCount unlikedStore
  by_cases h1 : f.deleteLike = true <;>
  by_cases h3 : f.updateColumn = true <;>
  by_cases h4 : f.commit = true <;> simp [h1, h3, h4]

theorem LikeWishLookup_cases (db : Store) (f : Faults) (idStr : String) (u : Nat) :
    (∃ r, LikeWishLookup db f idStr u = .done r) ∨
    (∃ w, findLike db.likes w u = none ∧ LikeWishLookup db f idStr u = .like w u) ∨
    (∃ w, findLike db.likes w u = some ⟨w, u⟩ ∧
      LikeWishLookup db f idStr u = .unlike ⟨w, u⟩ w) := by
  unfold LikeWishLookup
  cases hp : ParseUint idStr with
  | error e => exact Or.inl ⟨_, rfl⟩
  | ok w64 =>
    simp only []
    cases hw : firstWish db f (w64 % 2 ^ 64) with
    | error e => cases e <;> exact Or.inl ⟨_, rfl⟩
    | ok wish =>
      simp only []
      unfold firstLike
      by_cases hf : f.firstLike = true
      · simp only [hf, if_true]
        exact Or.inl ⟨_, rfl⟩
      · simp only [hf, Bool.false_eq_true, if_false]
        cases hl : findLike db.likes (w64 % 2 ^ 64) u with
        | none => exact Or.inr (Or.inl ⟨_, hl, rfl⟩)
        | some l =>
          have hl2 := findLike_eq hl
          subst hl2
          exact Or.inr (Or.inr ⟨_, hl, rfl⟩)

theorem LikeWish_fst_cases (db : Store) (f : Faults) (idStr : String) (u : Nat) :
    (LikeWish db f idStr u).1 = db ∨
    (∃ w, findLike db.likes w u = none ∧ (LikeWish db f idStr u).1 = likedStore db w u) ∨
    (∃ w, findLike db.likes w u = some ⟨w, u⟩ ∧
      (LikeWish db f idStr u).1 = unlikedStore db w u) := by
  unfold LikeWish
  rcases LikeWishLookup_cases db f idStr u with ⟨r, h⟩ | ⟨w, hl, h⟩ | ⟨w, hl, h⟩
  · rw [h]; exact Or.inl rfl
  · rw [h]
    rcases LikeWishLike_fst db f w u with h1 | h1
    · exact Or.inl h1
    · exact Or.inr (Or.inl ⟨w, hl, h1.1⟩)
  · rw [h]
    rcases LikeWishUnlike_fst db f w u with h1 | h1
    · exact Or.inl h1
    · exact Or.inr (Or.inr ⟨w, hl, h1.1⟩)

theorem firstWish_noFaults {db : Store} {w : Nat} {wish : Wish}
    (h : findWish db.wishes w = some wish) : firstWish db noFaults w = .ok wish := by
  simp [firstWish, noFaults, h]

theorem LikeWish_like_eq {db : Store} {idStr : String} {w u : Nat} {wish : Wish}
    (hp : ParseUint idStr = .ok w) (hw : findWish db.wishes w = some wish)
    (hl : findLike db.likes w u = none) :
    LikeWish db noFaults idStr u =
      (likedStore db w u, ⟨.SUCCESS, .LikeToggleResponse true⟩) := by
  have hany := any_likeMatches_of_none hl
  have hlook : LikeWishLookup db noFaults idStr u = .like w u := by
    have hf : noFaults.firstLike = false := rfl
    simp only [LikeWishLookup, hp, ParseUint_mod hp, firstWish_noFaults hw, firstLike, hl, hf,
      Bool.false_eq_true, if_false]
  have hc : noFaults.createLike = false := rfl
  have hu : noFaults.updateColumn = false := rfl
  have hm : noFaults.commit = false := rfl
  simp [LikeWish, hlook, LikeWishLike, Transaction, createLike, updateLikeCount, likedStore,
    hany, hc, hu, hm]

theorem LikeWish_unlike_eq {db : Store} {idStr : String} {w u : Nat} {wish : Wish} {l : Like}
    (hp : ParseUint idStr = .ok w) (hw : findWish db.wishes w = some wish)
    (hl : findLike db.likes w u = some l) :
    LikeWish db noFaults idStr u =
      (unlikedStore db w u, ⟨.SUCCESS, .LikeToggleResponse false⟩) := by
  have hl2 := findLike_eq hl
  subst hl2
  have hlook : LikeWishLookup db noFaults idStr u = .unlike ⟨w, u⟩ w := by
    have hf : noFaults.firstLike = false := rfl
    simp only [LikeWishLookup, hp, ParseUint_mod hp, firstWish_noFaults hw, firstLike, hl, hf,
      Bool.false_eq_true, if_false]
  have hd : noFaults.deleteLike = false := rfl
  have hu : noFaults.updateColumn = false := rfl
  have hm : noFaults.commit = false := rfl
  simp [LikeWish, hlook, LikeWishUnlike, Transaction, deleteLike, updateLikeCount, unlikedStore,
    hd, hu, hm]

theorem likeCount_likedStore (db : Store) (w w2 u : Nat) :
    likeCount (likedStore db w u) w2 =
      (likeCount db w2).map (fun c => if w = w2 then c + 1 else c) := by
  unfold likeCount likedStore
  simp only [findWish_bump]
  cases h : findWish db.wishes w2 with
  | none => rfl
  | some wish =>
    have hm := findWish_matches h
    simp only [Option.map_some', Option.some.injEq, bumpWish]
    by_cases hww : w = w2
    · subst hww; simp [hm]
    · have : wishMatches w wish = false := by
        simp only [wishMatches, Bool.and_eq_true, beq_iff_eq, Bool.not_eq_true'] at hm
        simp [wishMatches, hm.1, Ne.symm hww]
      simp [this, hww]

theorem likeCount_unlikedStore (db : Store) (w w2 u : Nat) :
    likeCount (unlikedStore db w u) w2 =
      (likeCount db w2).map (fun c => if w = w2 then c - 1 else c) := by
  unfold likeCount unlikedStore
  simp only [findWish_bump]
  cases h : findWish db.wishes w2 with
  | none => rfl
  | some wish =>
    have hm := findWish_matches h
    simp only [Option.map_some', Option.some.injEq, bumpWish]
    by_cases hww : w = w2
    · subst hww; simp [hm]; rfl
    · have : wishMatches w wish = false := by
        simp only [wishMatches, Bool.and_eq_true, beq_iff_eq, Bool.not_eq_true'] at hm
        simp [wishMatches, hm.1, Ne.symm hww]
      simp [this, hww]

theorem likesOfWish_likedStore (db : Store) (w w2 u : Nat) :
    likesOfWish (likedStore db w u) w2 = likesOfWish db w2 + (if w = w2 then 1 else 0) := by
  unfold likesOfWish likedStore
  by_cases hww : w = w2 <;> simp [List.countP_cons, hww]

theorem likesOfWish_unlikedStore (db : Store) (w w2 u : Nat)
    (hmem : (⟨w, u⟩ : Like) ∈ db.likes) :
    likesOfWish (unlikedStore db w u) w2 + (if w = w2 then 1 else 0) = likesOfWish db w2 := by
  unfold likesOfWish unlikedStore
  by_cases hww : w = w2
  · subst hww
    simp only [if_true]
    exact countP_erase_of_pos _ _ (by simp) _ hmem
  · simp only [hww, if_false, Nat.add_zero]
    exact countP_erase_of_neg _ _ (by simp [hww]) _

theorem likesOfPair_eq_count (db : Store) (w u : Nat) :
    likesOfPair db w u = db.likes.count ⟨w, u⟩ := by
  unfold likesOfPair
  rw [List.count_eq_countP]
  apply List.countP_congr
  intro l _
  rw [likeMatches_iff]
  simp

theorem findLike_none_of_count {db : Store} {w u : Nat} (h : likesOfPair db w u = 0) :
    findLike db.likes w u = none := by
  rw [findLike_none_iff]
  rw [likesOfPair_eq_count] at h
  exact List.count_eq_zero.1 h

theorem findLike_some_of_count {db : Store} {w u : Nat} (h : 0 < likesOfPair db w u) :
    findLike db.likes w u = some ⟨w, u⟩ := by
  rw [likesOfPair_eq_count] at h
  have hmem : (⟨w, u⟩ : Like) ∈ db.likes := List.count_pos_iff.1 h
  cases hl : findLike db.likes w u with
  | none => exact absurd hmem ((findLike_none_iff _ _ _).1 hl)
  | some l => rw [findLike_eq hl]

theorem count_step (db : Store) (f : Faults) (idStr : String) (u wishID : Nat)
    (hinv : likeCount db wishID = some (likesOfWish db wishID : Int)) :
    likeCount (LikeWish db f idStr u).1 wishID =
      some (likesOfWish (LikeWish db f idStr u).1 wishID : Int) := by
  rcases LikeWish_fst_cases db f idStr u with h | ⟨w, _, h⟩ | ⟨w, hl, h⟩
  · rw [h]; exact hinv
  · rw [h, likeCount_likedStore, likesOfWish_likedStore, hinv]
    by_cases hww : w = wishID <;> simp [hww]
  · have hmem := findLike_mem hl
    have hcnt := likesOfWish_unlikedStore db w wishID u hmem
    rw [h, likeCount_unlikedStore, hinv]
    by_cases hww : w = wishID
    · simp only [hww, if_true] at hcnt ⊢
      simp only [Option.map_some', Option.some.injEq]
      omega
    · simp only [hww, if_false, Nat.add_zero] at hcnt ⊢
      simp [hcnt]

theorem count_run (wishID : Nat) (calls : List Call) :
    ∀ db : Store, likeCount db wishID = some (likesOfWish db wishID : Int) →
      likeCount (runLikeWish db calls) wishID =
        some (likesOfWish (runLikeWish db calls) wishID : Int) := by
  induction calls with
  | nil => intro db h; exact h
  | cons c cs ih =>
    intro db h
    exact ih _ (count_step db c.faults c.idStr c.userID wishID h)

theorem nodup_step (db : Store) (f : Faults) (idStr : String) (u : Nat)
    (hnd : db.likes.Nodup) : (LikeWish db f idStr u).1.likes.Nodup := by
  rcases LikeWish_fst_cases db f idStr u with h | ⟨w, hl, h⟩ | ⟨w, _, h⟩
  · rw [h]; exact hnd
  · rw [h]
    have hnm := (findLike_none_iff _ _ _).1 hl
    show (db.likes ++ [(⟨w, u⟩ : Like)]).Nodup
    rw [List.nodup_append]
    refine ⟨hnd, List.nodup_singleton _, ?_⟩
    intro a ha hb
    rw [List.mem_singleton] at hb
    exact hnm (hb ▸ ha)
  · rw [h]
    exact hnd.erase _

theorem nodup_run (calls : List Call) :
    ∀ db : Store, db.likes.Nodup → (runLikeWish db calls).likes.Nodup := by
  induction calls with
  | nil => intro db h; exact h
  | cons c cs ih =>
    intro db h
    exact ih _ (nodup_step db c.faults c.idStr c.userID h)

theorem nodup_iff_pairs (db : Store) :
    db.likes.Nodup ↔ ∀ w u, likesOfPair db w u ≤ 1 := by
  rw [List.nodup_iff_count_le_one]
  constructor
  · intro h w u
    rw [likesOfPair_eq_count]
    exact h _
  · intro h a
    have := h a.WishID a.UserID
    rw [likesOfPair_eq_count] at this
    exact this

theorem bump_cancel (w : Nat) (ws : List Wish) :
    (ws.map (bumpWish w 1)).map (bumpWish w (-1)) = ws := by
  rw [List.map_map]
  conv_rhs => rw [← List.map_id ws]
  apply List.map_congr_left
  intro a _
  simp only [Function.comp, bumpWish, id]
  by_cases hm : wishMatches w a = true
  · have hm2 : wishMatches w { a with LikeCount := a.LikeCount + 1 } = true := hm
    simp only [hm, if_true, hm2]
    cases a
    simp
  · simp [hm]

theorem unliked_liked (db : Store) (w u : Nat) (hl : findLike db.likes w u = none) :
    unlikedStore (likedStore db w u) w u = db := by
  have hnm := (findLike_none_iff _ _ _).1 hl
  cases db with
  | mk wishes likes uq =>
    simp only [unlikedStore, likedStore, bump_cancel, Store.mk.injEq, true_and, and_true]
    rw [List.erase_append_right _ hnm]
    simp

theorem findWish_of_likeCount {db : Store} {w : Nat} {c : Int}
    (hc : likeCount db w = some c) : ∃ wish, findWish db.wishes w = some wish := by
  unfold likeCount at hc
  cases h : findWish db.wishes w with
  | none => rw [h] at hc; simp at hc
  | some wish => exact ⟨wish, rfl⟩

/-! ## The like toggle -/

/-- C1 (count invariant, I1/P2): from a store in which the counter of a wish
equals the number of its like records, after each call of any finite sequence
of `LikeWish` requests (any users, any target, successful or failed, hence in
particular successful requests on that wish) the counter still equals the
number of like records of the wish. -/
theorem LikeWish_count_invariant (db : Store) (wishID : Nat) (calls : List Call)
    (hinv : likeCount db wishID = some (likesOfWish db wishID : Int)) :
    ∀ n : Nat, likeCount (runLikeWish db (calls.take n)) wishID =
      some (likesOfWish (runLikeWish db (calls.take n)) wishID : Int) :=
  fun n => count_run wishID (calls.take n) db hinv

theorem LikeWish_count_invariant_witness :
    likeCount scenarioC 1 = some (likesOfWish scenarioC 1 : Int) ∧
    likesOfWish (runLikeWish scenarioC (threeCalls.take 2)) 1 = 7 ∧
    likeCount (runLikeWish scenarioC (threeCalls.take 2)) 1 =
      some (likesOfWish (runLikeWish scenarioC (threeCalls.take 2)) 1 : Int) :=
  ⟨by decide, by decide, LikeWish_count_invariant scenarioC 1 threeCalls (by decide) 2⟩

/-- C2 (toggle law, P1): when the wish exists and the pair has no like record,
two `LikeWish` requests of that user on that wish with no storage failure answer
`liked: true` and then `liked: false`, and the store after the second request
is the store before the first (counter and like relation included). -/
theorem LikeWish_toggle_law (db : Store) (idStr : String) (wishID userID : Nat) (c : Int)
    (hp : ParseUint idStr = .ok wishID) (hc : likeCount db wishID = some c)
    (hl : likesOfPair db wishID userID = 0) :
    (LikeWish db noFaults idStr userID).2 = ⟨.SUCCESS, .LikeToggleResponse true⟩ ∧
    LikeWish (LikeWish db noFaults idStr userID).1 noFaults idStr userID =
      (db, ⟨.SUCCESS, .LikeToggleResponse false⟩) := by
  obtain ⟨wish, hw⟩ := findWish_of_likeCount hc
  have hnone := findLike_none_of_count hl
  have h1 := LikeWish_like_eq hp hw hnone
  rw [h1]
  refine ⟨rfl, ?_⟩
  have hw2 : findWish (likedStore db wishID userID).wishes wishID =
      some (bumpWish wishID 1 wish) := by
    show findWish (db.wishes.map (bumpWish wishID 1)) wishID = _
    rw [findWish_bump, hw]; rfl
  have hmem : (⟨wishID, userID⟩ : Like) ∈ (likedStore db wishID userID).likes := by
    show _ ∈ db.likes ++ [_]
    simp
  cases hl2 : findLike (likedStore db wishID userID).likes wishID userID with
  | none => exact absurd hmem ((findLike_none_iff _ _ _).1 hl2)
  | some l =>
    rw [LikeWish_unlike_eq hp hw2 hl2, unliked_liked db wishID userID hnone]

theorem LikeWish_toggle_law_witness :
    ParseUint "1" = .ok 1 ∧ likeCount scenarioA 1 = some 0 ∧ likesOfPair scenarioA 1 5 = 0 ∧
    ((LikeWish scenarioA noFaults "1" 5).2 = ⟨.SUCCESS, .LikeToggleResponse true⟩ ∧
      LikeWish (LikeWish scenarioA noFaults "1" 5).1 noFaults "1" 5 =
        (scenarioA, ⟨.SUCCESS, .LikeToggleResponse false⟩)) :=
  ⟨rfl, by decide, by decide, LikeWish_toggle_law scenarioA "1" 1 5 0 rfl (by decide) (by decide)⟩

/-- C3 (single step of `LikeWish`): when the wish exists and no storage call
fails, the `liked` flag of the response is the negation of whether the pair had
a like record; if it had none, exactly one record of the pair is appended and
the counter of the wish grows by one; if it had one, one record of the pair is
removed and the counter shrinks by one. -/
theorem LikeWish_single_step (db : Store) (idStr : String) (wishID userID : Nat) (c : Int)
    (hp : ParseUint idStr = .ok wishID) (hc : likeCount db wishID = some c) :
    (LikeWish db noFaults idStr userID).2 =
      ⟨.SUCCESS, .LikeToggleResponse (likesOfPair db wishID userID == 0)⟩ ∧
    (if likesOfPair db wishID userID = 0 then
      (LikeWish db noFaults idStr userID).1.likes = db.likes ++ [⟨wishID, userID⟩] ∧
      likesOfPair (LikeWish db noFaults idStr userID).1 wishID userID = 1 ∧
      likeCount (LikeWish db noFaults idStr userID).1 wishID = some (c + 1)
    else
      (LikeWish db noFaults idStr userID).1.likes = db.likes.erase ⟨wishID, userID⟩ ∧
      likesOfPair (LikeWish db noFaults idStr userID).1 wishID userID + 1 =
        likesOfPair db wishID userID ∧
      likeCount (LikeWish db noFaults idStr userID).1 wishID = some (c - 1)) := by
  obtain ⟨wish, hw⟩ := findWish_of_likeCount hc
  by_cases h0 : likesOfPair db wishID userID = 0
  · have hnone := findLike_none_of_count h0
    rw [LikeWish_like_eq hp hw hnone, if_pos h0]
    refine ⟨by simp [h0], rfl, ?_, ?_⟩
    · show List.countP _ (db.likes ++ [_]) = 1
      rw [List.countP_append]
      have : List.countP (likeMatches wishID userID) db.likes = 0 := h0
      simp [this, List.countP_cons, likeMatches]
    · rw [likeCount_likedStore, hc]; simp
  · have hpos : 0 < likesOfPair db wishID userID := Nat.pos_of_ne_zero h0
    have hsome := findLike_some_of_count hpos
    rw [LikeWish_unlike_eq hp hw hsome, if_neg h0]
    refine ⟨by simp [h0], rfl, ?_, ?_⟩
    · exact countP_erase_of_pos _ _ ((likeMatches_iff _ _ _).2 rfl) _ (findLike_mem hsome)
    · rw [likeCount_unlikedStore, hc]; simp

theorem LikeWish_single_step_witness :
    (ParseUint "1" = .ok 1 ∧ likeCount scenarioC 1 = some 5) ∧
    ((LikeWish scenarioC noFaults "1" 16).2 =
      ⟨.SUCCESS, .LikeToggleResponse (likesOfPair scenarioC 1 16 == 0)⟩ ∧
    (if likesOfPair scenarioC 1 16 = 0 then
      (LikeWish scenarioC noFaults "1" 16).1.likes = scenarioC.likes ++ [⟨1, 16⟩] ∧
      likesOfPair (LikeWish scenarioC noFaults "1" 16).1 1 16 = 1 ∧
      likeCount (LikeWish scenarioC noFaults "1" 16).1 1 = some (5 + 1)
    else
      (LikeWish scenarioC noFaults "1" 16).1.likes = scenarioC.likes.erase ⟨1, 16⟩ ∧
      likesOfPair (LikeWish scenarioC noFaults "1" 16).1 1 16 + 1 = likesOfPair scenarioC 1 16 ∧
      likeCount (LikeWish scenarioC noFaults "1" 16).1 1 = some (5 - 1))) :=
  ⟨⟨rfl, by decide⟩, LikeWish_single_step scenarioC "1" 1 16 5 rfl (by decide)⟩

/-- C7 (set semantics, I2): from a store in which every pair has at most one
like record, every state reached by a finite sequence of sequential `LikeWish`
requests still has at most one like record per pair. -/
theorem LikeWish_set_semantics (db : Store) (calls : List Call)
    (hset : ∀ w u, likesOfPair db w u ≤ 1) :
    ∀ (n w u : Nat), likesOfPair (runLikeWish db (calls.take n)) w u ≤ 1 := by
  intro n
  exact (nodup_iff_pairs _).1 (nodup_run (calls.take n) db ((nodup_iff_pairs db).2 hset))

theorem LikeWish_set_semantics_witness :
    (∀ w u, likesOfPair scenarioC w u ≤ 1) ∧
    likesOfPair (runLikeWish scenarioC (threeCalls.take 2)) 1 5 ≤ 1 :=
  ⟨(nodup_iff_pairs scenarioC).1 (by decide),
   LikeWish_set_semantics scenarioC threeCalls ((nodup_iff_pairs scenarioC).1 (by decide)) 2 1 5⟩

/-- C4 (not found, scenario D): when the identifier parses to a wish that is
not in the store and the lookup itself does not fail, `LikeWish` answers
`ERROR_WISH_NOT_FOUND` and the store after the call is the store before it. -/
theorem LikeWish_not_found (db : Store) (f : Faults) (idStr : String) (wishID userID : Nat)
    (hp : ParseUint idStr = .ok wishID) (hw : findWish db.wishes wishID = none)
    (hq : f.firstWish = false) :
    LikeWish db f idStr userID = (db, ⟨.ERROR_WISH_NOT_FOUND, .empty⟩) := by
  simp only [LikeWish, LikeWishLookup, hp, ParseUint_mod hp, firstWish, hq, hw,
    Bool.false_eq_true, if_false]

theorem LikeWish_not_found_witness :
    (ParseUint "2" = .ok 2 ∧ findWish scenarioA.wishes 2 = none ∧
      updateFails.firstWish = false) ∧
    LikeWish scenarioA updateFails "2" 5 = (scenarioA, ⟨.ERROR_WISH_NOT_FOUND, .empty⟩) :=
  ⟨⟨rfl, by decide, rfl⟩, LikeWish_not_found scenarioA updateFails "2" 2 5 rfl (by decide) rfl⟩

/-- C5 (atomicity on storage failure): in a `LikeWish` call that reaches one of
its two transactions and in which a storage step of that transaction fails (the
delete or the insert of the like record, or the `like_count` update), the
response is the error `ERROR_LIKE_FAILED` and the store after the call is the
store before it. -/
theorem LikeWish_atomic (db : Store) (f : Faults) (idStr : String) (userID : Nat)
    (hfail : match LikeWishLookup db f idStr userID with
      | .done _ => False
      | .unlike _ _ => f.deleteLike = true ∨ f.updateColumn = true
      | .like _ _ => f.createLike = true ∨ f.updateColumn = true) :
    LikeWish db f idStr userID = (db, ⟨.ERROR_LIKE_FAILED, .empty⟩) := by
  unfold LikeWish
  cases hlk : LikeWishLookup db f idStr userID with
  | done r => rw [hlk] at hfail; exact absurd hfail id
  | unlike existing w =>
    rw [hlk] at hfail
    simp only [LikeWishUnlike, Transaction, deleteLike, updateLikeCount]
    by_cases h1 : f.deleteLike = true
    · simp [h1]
    · have h3 : f.updateColumn = true := hfail.resolve_left h1
      simp [h1, h3]
  | like w u =>
    rw [hlk] at hfail
    simp only [LikeWishLike, Transaction, createLike, updateLikeCount]
    by_cases h1 : f.createLike = true
    · simp [h1]
    · have h3 : f.updateColumn = true := hfail.resolve_left h1
      by_cases h2 : (db.likeUnique && db.likes.any (likeMatches w u)) = true
      · simp only [h1, h2, Bool.false_eq_true, if_false, if_true]
      · simp only [h1, h2, h3, Bool.false_eq_true, if_false, if_true]

theorem LikeWish_atomic_witness :
    (match LikeWishLookup scenarioA updateFails "1" 5 with
      | .done _ => False
      | .unlike _ _ => updateFails.deleteLike = true ∨ updateFails.updateColumn = true
      | .like _ _ => updateFails.createLike = true ∨ updateFails.updateColumn = true) ∧
    LikeWish scenarioA updateFails "1" 5 = (scenarioA, ⟨.ERROR_LIKE_FAILED, .empty⟩) :=
  ⟨Or.inr rfl, LikeWish_atomic scenarioA updateFails "1" 5 (Or.inr rfl)⟩

/-- C6, as stated, fails: user 5 looks up wish 1 in a store without a record
of the pair, so the handler goes for the insert; by then another request has
committed the record, the insert is refused by the uniqueness constraint, and
the response is the error `ERROR_LIKE_FAILED` with no `liked` flag. -/
theorem LikeWish_conflict_is_error :
    LikeWishLookup scenarioA noFaults "1" 5 = .like 1 5 ∧
    createLike scenarioRaced noFaults ⟨1, 5⟩ = .error .ErrDuplicatedKey ∧
    (LikeWishLike scenarioRaced noFaults 1 5).2 = ⟨.ERROR_LIKE_FAILED, .empty⟩ ∧
    (LikeWishLike scenarioRaced noFaults 1 5).2.code ≠ .SUCCESS :=
  ⟨by decide, rfl, by decide, by decide⟩

/-- C6, amended: when the lookup of a `LikeWish` call found no like record of
the pair and its insert then meets a record of the pair under the uniqueness
constraint, the response is the error `ERROR_LIKE_FAILED` with empty data and
the transaction leaves the store as it found it. -/
theorem LikeWish_conflict_rolls_back (db0 db1 : Store) (f : Faults) (idStr : String)
    (userID wishID uid : Nat)
    (hlook : LikeWishLookup db0 f idStr userID = .like wishID uid)
    (huniq : db1.likeUnique = true) (hrec : 0 < likesOfPair db1 wishID uid) :
    uid = userID ∧ likesOfPair db0 wishID uid = 0 ∧
    LikeWishLike db1 f wishID uid = (db1, ⟨.ERROR_LIKE_FAILED, .empty⟩) := by
  have hany : db1.likes.any (likeMatches wishID uid) = true := by
    rw [List.any_eq_true]
    exact List.countP_pos_iff.1 hrec
  refine ⟨?_, ?_, ?_⟩
  · rcases LikeWishLookup_cases db0 f idStr userID with ⟨r, h⟩ | ⟨w, _, h⟩ | ⟨w, _, h⟩
    · rw [h] at hlook; cases hlook
    · rw [h] at hlook; cases hlook; rfl
    · rw [h] at hlook; cases hlook
  · rcases LikeWishLookup_cases db0 f idStr userID with ⟨r, h⟩ | ⟨w, hl, h⟩ | ⟨w, _, h⟩
    · rw [h] at hlook; cases hlook
    · rw [h] at hlook
      cases hlook
      rw [likesOfPair_eq_count]
      exact List.count_eq_zero.2 ((findLike_none_iff _ _ _).1 hl)
    · rw [h] at hlook; cases hlook
  · simp only [LikeWishLike, Transaction, createLike, updateLikeCount]
    by_cases h1 : f.createLike = true
    · simp [h1]
    · simp [h1, huniq, hany]

theorem LikeWish_conflict_rolls_back_witness :
    (LikeWishLookup scenarioA noFaults "1" 5 = .like 1 5 ∧ scenarioRaced.likeUnique = true ∧
      0 < likesOfPair scenarioRaced 1 5) ∧
    (5 = 5 ∧ likesOfPair scenarioA 1 5 = 0 ∧
      LikeWishLike scenarioRaced noFaults 1 5 = (scenarioRaced, ⟨.ERROR_LIKE_FAILED, .empty⟩)) :=
  ⟨⟨by decide, rfl, by decide⟩,
   LikeWish_conflict_rolls_back scenarioA scenarioRaced noFaults "1" 5 1 5 (by decide) rfl
     (by decide)⟩

/-! ## Two requests of one user in flight -/

theorem LikeWish_eq_finish (db : Store) (f : Faults) (idStr : String) (u : Nat) :
    LikeWish db f idStr u = LikeWishFinish db f (LikeWishLookup db f idStr u) := by
  unfold LikeWish LikeWishFinish
  cases LikeWishLookup db f idStr u <;> rfl

theorem LikeWishLookup_like_eq {db : Store} {idStr : String} {w u : Nat} {wish : Wish}
    (hp : ParseUint idStr = .ok w) (hw : findWish db.wishes w = some wish)
    (hl : findLike db.likes w u = none) :
    LikeWishLookup db noFaults idStr u = .like w u := by
  have hf : noFaults.firstLike = false := rfl
  simp only [LikeWishLookup, hp, ParseUint_mod hp, firstWish_noFaults hw, firstLike, hl, hf,
    Bool.false_eq_true, if_false]

theorem LikeWishLike_fresh {db : Store} {w u : Nat} (hl : findLike db.likes w u = none) :
    LikeWishLike db noFaults w u =
      (likedStore db w u, ⟨.SUCCESS, .LikeToggleResponse true⟩) := by
  have hany := any_likeMatches_of_none hl
  have hc : noFaults.createLike = false := rfl
  have hu : noFaults.updateColumn = false := rfl
  have hm : noFaults.commit = false := rfl
  simp [LikeWishLike, Transaction, createLike, updateLikeCount, likedStore, hany, hc, hu, hm]

theorem LikeWishLike_duplicate {db : Store} {w u : Nat} (f : Faults)
    (huniq : db.likeUnique = true) (hmem : (⟨w, u⟩ : Like) ∈ db.likes) :
    LikeWishLike db f w u = (db, ⟨.ERROR_LIKE_FAILED, .empty⟩) := by
  have hany : db.likes.any (likeMatches w u) = true := by
    rw [List.any_eq_true]
    exact ⟨_, hmem, (likeMatches_iff w u _).2 rfl⟩
  simp only [LikeWishLike, Transaction, createLike, updateLikeCount]
  by_cases h1 : f.createLike = true
  · simp [h1]
  · simp [h1, huniq, hany]

theorem likesOfPair_likedStore {db : Store} {w u : Nat} (hl : likesOfPair db w u = 0) :
    likesOfPair (likedStore db w u) w u = 1 := by
  show List.countP _ (db.likes ++ [_]) = 1
  rw [List.countP_append]
  have : List.countP (likeMatches w u) db.likes = 0 := hl
  simp [this, List.countP_cons, likeMatches]

theorem race_both_decided {db : Store} {idStr : String} {w u : Nat} {wish : Wish}
    (hp : ParseUint idStr = .ok w) (hw : findWish db.wishes w = some wish)
    (hl : findLike db.likes w u = none) (huniq : db.likeUnique = true) :
    (LikeWishFinish (likedStore db w u) noFaults (.like w u) =
      (likedStore db w u, ⟨.ERROR_LIKE_FAILED, .empty⟩)) ∧
    LikeWishFinish db noFaults (.like w u) =
      (likedStore db w u, ⟨.SUCCESS, .LikeToggleResponse true⟩) ∧
    LikeWishLookup db noFaults idStr u = .like w u := by
  have h1 : LikeWishFinish db noFaults (.like w u) =
      (likedStore db w u, ⟨.SUCCESS, .LikeToggleResponse true⟩) := LikeWishLike_fresh hl
  refine ⟨?_, h1, LikeWishLookup_like_eq hp hw hl⟩
  have hmem : (⟨w, u⟩ : Like) ∈ (likedStore db w u).likes := by
    show _ ∈ db.likes ++ [_]
    simp
  exact LikeWishLike_duplicate noFaults huniq hmem

/-- When the second request starts only after the first has answered, it finds
the record and takes the unlike branch: the store is back where it was. -/
theorem race_serial_restores (db : Store) (idStr : String) (w u : Nat) (wish : Wish)
    (hp : ParseUint idStr = .ok w) (hw : findWish db.wishes w = some wish)
    (hl : findLike db.likes w u = none) :
    runRace noFaults idStr u [false, false, true, true] ⟨db, .arrived, .arrived⟩ =
      ⟨db, .answered ⟨.SUCCESS, .LikeToggleResponse true⟩,
        .answered ⟨.SUCCESS, .LikeToggleResponse false⟩⟩ := by
  have h1 := LikeWish_like_eq hp hw hl
  have hw2 : findWish (likedStore db w u).wishes w = some (bumpWish w 1 wish) := by
    show findWish (db.wishes.map (bumpWish w 1)) w = _
    rw [findWish_bump, hw]; rfl
  have hmem : (⟨w, u⟩ : Like) ∈ (likedStore db w u).likes := by
    show _ ∈ db.likes ++ [_]
    simp
  cases hl2 : findLike (likedStore db w u).likes w u with
  | none => exact absurd hmem ((findLike_none_iff _ _ _).1 hl2)
  | some l =>
    have h2 := LikeWish_unlike_eq hp hw2 hl2
    rw [unliked_liked db w u hl] at h2
    simp only [runRace, advance, ← LikeWish_eq_finish, h1, h2]

/-- C8, as stated, fails: on a `likes` table without a uniqueness constraint,
two requests of user 5 on wish 1 whose lookups both run before either
transaction both insert; the store ends with two records of the pair and the
counter 2 higher. -/
theorem LikeWish_race_double_insert :
    likesOfPair scenarioNoIndex 1 5 = 0 ∧ likeCount scenarioNoIndex 1 = some 0 ∧
    (runRace noFaults "1" 5 [false, true, false, true]
      ⟨scenarioNoIndex, .arrived, .arrived⟩).first =
        .answered ⟨.SUCCESS, .LikeToggleResponse true⟩ ∧
    (runRace noFaults "1" 5 [false, true, false, true]
      ⟨scenarioNoIndex, .arrived, .arrived⟩).second =
        .answered ⟨.SUCCESS, .LikeToggleResponse true⟩ ∧
    likesOfPair (runRace noFaults "1" 5 [false, true, false, true]
      ⟨scenarioNoIndex, .arrived, .arrived⟩).db 1 5 = 2 ∧
    likeCount (runRace noFaults "1" 5 [false, true, false, true]
      ⟨scenarioNoIndex, .arrived, .arrived⟩).db 1 = some 2 := by
  refine ⟨by decide, by decide, by decide, by decide, by decide, by decide⟩

/-- C8, amended: the wish exists, the pair has no like record, the `likes`
table carries the uniqueness constraint and no storage call fails.  For every
schedule of two requests of the same user on that wish (two moves each: lookup,
then transaction) in which both lookups run before either transaction, the
store ends with exactly one record of the pair and the counter exactly 1
higher; the request whose transaction runs first is answered `liked: true`, the
other `ERROR_LIKE_FAILED`. -/
theorem LikeWish_race_one_insert (db : Store) (idStr : String) (wishID userID : Nat) (c : Int)
    (s : List Bool)
    (hp : ParseUint idStr = .ok wishID) (hc : likeCount db wishID = some c)
    (hl : likesOfPair db wishID userID = 0) (huniq : db.likeUnique = true)
    (hs : s.count false = 2 ∧ s.count true = 2)
    (hov : s.take 2 = [false, true] ∨ s.take 2 = [true, false]) :
    (runRace noFaults idStr userID s ⟨db, .arrived, .arrived⟩).db = likedStore db wishID userID ∧
    likesOfPair (runRace noFaults idStr userID s ⟨db, .arrived, .arrived⟩).db wishID userID = 1 ∧
    likeCount (runRace noFaults idStr userID s ⟨db, .arrived, .arrived⟩).db wishID =
      some (c + 1) ∧
    (((runRace noFaults idStr userID s ⟨db, .arrived, .arrived⟩).first =
          .answered ⟨.SUCCESS, .LikeToggleResponse true⟩ ∧
        (runRace noFaults idStr userID s ⟨db, .arrived, .arrived⟩).second =
          .answered ⟨.ERROR_LIKE_FAILED, .empty⟩) ∨
      ((runRace noFaults idStr userID s ⟨db, .arrived, .arrived⟩).first =
          .answered ⟨.ERROR_LIKE_FAILED, .empty⟩ ∧
        (runRace noFaults idStr userID s ⟨db, .arrived, .arrived⟩).second =
          .answered ⟨.SUCCESS, .LikeToggleResponse true⟩)) := by
  obtain ⟨wish, hw⟩ := findWish_of_likeCount hc
  have hnone := findLike_none_of_count hl
  obtain ⟨h2, h1, hlook⟩ := race_both_decided hp hw hnone huniq
  have hcount : likeCount (likedStore db wishID userID) wishID = some (c + 1) := by
    rw [likeCount_likedStore, hc]; simp
  have hpair := likesOfPair_likedStore hl
  have hlen : s.length = 4 := by
    have := List.count_true_add_count_false s
    omega
  match s, hlen with
  | [a, b, x, y], _ =>
    cases a <;> cases b <;> cases x <;> cases y <;>
      simp at hs hov <;>
      simp only [runRace, advance, hlook, h1, h2] <;>
      simp [hpair, hcount]

theorem LikeWish_race_one_insert_witness :
    (ParseUint "1" = .ok 1 ∧ likeCount scenarioA 1 = some 0 ∧ likesOfPair scenarioA 1 5 = 0 ∧
      scenarioA.likeUnique = true) ∧
    ((runRace noFaults "1" 5 [false, true, true, false] ⟨scenarioA, .arrived, .arrived⟩).db =
        likedStore scenarioA 1 5 ∧
      likesOfPair (runRace noFaults "1" 5 [false, true, true, false]
        ⟨scenarioA, .arrived, .arrived⟩).db 1 5 = 1 ∧
      likeCount (runRace noFaults "1" 5 [false, true, true, false]
        ⟨scenarioA, .arrived, .arrived⟩).db 1 = some (0 + 1) ∧
      (((runRace noFaults "1" 5 [false, true, true, false]
            ⟨scenarioA, .arrived, .arrived⟩).first =
            .answered ⟨.SUCCESS, .LikeToggleResponse true⟩ ∧
          (runRace noFaults "1" 5 [false, true, true, false]
            ⟨scenarioA, .arrived, .arrived⟩).second =
            .answered ⟨.ERROR_LIKE_FAILED, .empty⟩) ∨
        ((runRace noFaults "1" 5 [false, true, true, false]
            ⟨scenarioA, .arrived, .arrived⟩).first =
            .answered ⟨.ERROR_LIKE_FAILED, .empty⟩ ∧
          (runRace noFaults "1" 5 [false, true, true, false]
            ⟨scenarioA, .arrived, .arrived⟩).second =
            .answered ⟨.SUCCESS, .LikeToggleResponse true⟩))) :=
  ⟨⟨rfl, by decide, by decide, rfl⟩,
   LikeWish_race_one_insert scenarioA "1" 1 5 0 [false, true, true, false] rfl (by decide)
     (by decide) rfl (by decide) (by decide)⟩

/-! ## Owner-only delete -/

theorem wishMatches_markDeleted_self (id : Nat) (w : Wish) :
    wishMatches id (markDeleted id w) = false := by
  unfold markDeleted
  by_cases h : wishMatches id w = true
  · rw [if_pos h]
    simp [wishMatches]
  · rw [if_neg h]
    simpa using h

theorem findWish_markDeleted_self (id : Nat) (ws : List Wish) :
    findWish (ws.map (markDeleted id)) id = none := by
  unfold findWish
  rw [List.find?_eq_none]
  intro x hx
  obtain ⟨a, _, rfl⟩ := List.mem_map.1 hx
  simp [wishMatches_markDeleted_self]

theorem findWish_markDeleted_other (id id2 : Nat) (hne : id2 ≠ id) (ws : List Wish) :
    findWish (ws.map (markDeleted id)) id2 = findWish ws id2 := by
  unfold findWish
  induction ws with
  | nil => rfl
  | cons a as ih =>
    rw [List.map_cons, List.find?_cons, List.find?_cons, ih]
    by_cases hm : wishMatches id a = true
    · have hid : a.ID = id := by
        simp only [wishMatches, Bool.and_eq_true, beq_iff_eq] at hm
        exact hm.1
      have h1 : wishMatches id2 a = false := by
        simp [wishMatches, hid, Ne.symm hne]
      have h2 : wishMatches id2 (markDeleted id a) = false := by
        rw [markDeleted, if_pos hm]
        simp [wishMatches, hid, Ne.symm hne]
      rw [h1, h2]
    · have h2 : markDeleted id a = a := by simp [markDeleted, hm]
      rw [h2]

theorem DeleteWish_fst_cases (db : Store) (f : Faults) (idStr : String) (userID : Nat) :
    (DeleteWish db f idStr userID).1 = db ∨
    ∃ wishID wish, findWish db.wishes wishID = some wish ∧ wish.UserID = userID ∧
      (DeleteWish db f idStr userID).1 = { db with wishes := db.wishes.map (markDeleted wishID) } := by
  unfold DeleteWish
  cases hp : ParseUint idStr with
  | error e => exact Or.inl rfl
  | ok w64 =>
    simp only []
    unfold firstWish
    by_cases hf : f.firstWish = true
    · left; simp only [hf, if_true]
    · simp only [hf, Bool.false_eq_true, if_false]
      cases hw : findWish db.wishes (w64 % 2 ^ 64) with
      | none => exact Or.inl rfl
      | some wish =>
        simp only []
        by_cases ho : wish.UserID = userID
        · simp only [ho, ne_eq, not_true_eq_false, if_false, softDeleteWish]
          by_cases hd : f.deleteWish = true
          · left; simp only [hd, if_true]
          · simp only [hd, Bool.false_eq_true, if_false]
            have hid : wish.ID = w64 % 2 ^ 64 := by
              have hm := findWish_matches hw
              simp only [wishMatches, Bool.and_eq_true, beq_iff_eq] at hm
              exact hm.1
            rw [hid]
            exact Or.inr ⟨_, wish, hw, ho, rfl⟩
        · left; simp only [ne_eq, ho, not_false_eq_true, if_true]

/-- C9 (owner-only delete): `DeleteWish` answers `ERROR_PARAM_INVALID` when the
identifier is not a valid unsigned integer, `ERROR_WISH_NOT_FOUND` when the wish
does not exist, `ERROR_UNAUTHORIZED` when the wish belongs to another user, each
time leaving the store unchanged; whatever the request, a wish that does not
belong to the acting user is still there afterwards; the owner's request, when
no storage call fails, succeeds and removes the wish. -/
theorem DeleteWish_owner_only (db : Store) (f : Faults) (idStr : String) (userID : Nat) :
    ((∃ e, ParseUint idStr = .error e) →
      DeleteWish db f idStr userID = (db, ⟨.ERROR_PARAM_INVALID, .empty⟩)) ∧
    (∀ wishID, ParseUint idStr = .ok wishID → f.firstWish = false →
      findWish db.wishes wishID = none →
      DeleteWish db f idStr userID = (db, ⟨.ERROR_WISH_NOT_FOUND, .empty⟩)) ∧
    (∀ wishID wish, ParseUint idStr = .ok wishID → f.firstWish = false →
      findWish db.wishes wishID = some wish → wish.UserID ≠ userID →
      DeleteWish db f idStr userID = (db, ⟨.ERROR_UNAUTHORIZED, .empty⟩)) ∧
    (∀ id2 wish2, findWish db.wishes id2 = some wish2 → wish2.UserID ≠ userID →
      findWish (DeleteWish db f idStr userID).1.wishes id2 = some wish2) ∧
    (∀ wishID wish, ParseUint idStr = .ok wishID → f.firstWish = false →
      f.deleteWish = false → findWish db.wishes wishID = some wish → wish.UserID = userID →
      (DeleteWish db f idStr userID).2 = ⟨.SUCCESS, .empty⟩ ∧
      findWish (DeleteWish db f idStr userID).1.wishes wishID = none ∧
      (DeleteWish db f idStr userID).1.likes = db.likes) := by
  refine ⟨?_, ?_, ?_, ?_, ?_⟩
  · rintro ⟨e, he⟩
    simp only [DeleteWish, he]
  · intro wishID hp hq hw
    simp only [DeleteWish, hp, ParseUint_mod hp, firstWish, hq, hw, Bool.false_eq_true, if_false]
  · intro wishID wish hp hq hw ho
    simp only [DeleteWish, hp, ParseUint_mod hp, firstWish, hq, hw, Bool.false_eq_true,
      if_false, ne_eq, ho, not_false_eq_true, if_true]
  · intro id2 wish2 hw2 ho2
    rcases DeleteWish_fst_cases db f idStr userID with h | ⟨wishID, wish, hw, ho, h⟩
    · rw [h]; exact hw2
    · rw [h]
      have hne : id2 ≠ wishID := by
        intro heq
        rw [heq, hw] at hw2
        cases hw2
        exact ho2 ho
      show findWish (db.wishes.map (markDeleted wishID)) id2 = some wish2
      rw [findWish_markDeleted_other wishID id2 hne, hw2]
  · intro wishID wish hp hq hd hw ho
    have hid : wish.ID = wishID := by
      have hm := findWish_matches hw
      simp only [wishMatches, Bool.and_eq_true, beq_iff_eq] at hm
      exact hm.1
    have hrun : DeleteWish db f idStr userID =
        ({ db with wishes := db.wishes.map (markDeleted wishID) }, ⟨.SUCCESS, .empty⟩) := by
      simp only [DeleteWish, hp, ParseUint_mod hp, firstWish, hq, hw, Bool.false_eq_true,
        if_false, ne_eq, ho, not_true_eq_false, softDeleteWish, hd, hid]
    rw [hrun]
    exact ⟨rfl, findWish_markDeleted_self wishID db.wishes, rfl⟩

theorem DeleteWish_owner_only_witness :
    DeleteWish scenarioC noFaults "-1" 7 = (scenarioC, ⟨.ERROR_PARAM_INVALID, .empty⟩) ∧
    DeleteWish scenarioC noFaults "3" 7 = (scenarioC, ⟨.ERROR_WISH_NOT_FOUND, .empty⟩) ∧
    DeleteWish scenarioC noFaults "2" 7 = (scenarioC, ⟨.ERROR_UNAUTHORIZED, .empty⟩) ∧
    findWish (DeleteWish scenarioC noFaults "1" 7).1.wishes 2 = some ⟨2, 8, 1, false⟩ ∧
    ((DeleteWish scenarioC noFaults "1" 7).2 = ⟨.SUCCESS, .empty⟩ ∧
      findWish (DeleteWish scenarioC noFaults "1" 7).1.wishes 1 = none ∧
      (DeleteWish scenarioC noFaults "1" 7).1.likes = scenarioC.likes) :=
  ⟨(DeleteWish_owner_only scenarioC noFaults "-1" 7).1 ⟨.ErrSyntax, rfl⟩,
   (DeleteWish_owner_only scenarioC noFaults "3" 7).2.1 3 rfl rfl (by decide),
   (DeleteWish_owner_only scenarioC noFaults "2" 7).2.2.1 2 ⟨2, 8, 1, false⟩ rfl rfl
     (by decide) (by decide),
   (DeleteWish_owner_only scenarioC noFaults "1" 7).2.2.2.1 2 ⟨2, 8, 1, false⟩
     (by decide) (by decide),
   (DeleteWish_owner_only scenarioC noFaults "1" 7).2.2.2.2 1 ⟨1, 7, 5, false⟩ rfl rfl rfl
     (by decide) rfl⟩

/-! ## Pagination -/

theorem wrapInt64_of_range (x : Int) (h0 : 0 ≤ x) (h1 : x < 2 ^ 63) : wrapInt64 x = x := by
  unfold wrapInt64
  norm_num at h1 ⊢
  omega

/-- C10, as stated, fails: page `2^62 + 1` with page size 2 gives the offset
`2^63`, which wraps to a negative Go `int`, in both list handlers. -/
theorem paging_offset_negative :
    isInt64 4611686018427387905 ∧ isInt64 2 ∧
    (GetPublicWishesPaging 4611686018427387905 2).pageSize = 2 ∧
    (GetPublicWishesPaging 4611686018427387905 2).offset = -9223372036854775808 ∧
    (GetPublicWishesPaging 4611686018427387905 2).offset < 0 ∧
    (GetMyWishesPaging 4611686018427387905 2).offset < 0 := by
  refine ⟨by decide, by decide, by decide, by decide, by decide, by decide⟩

/-- C10, amended: for all Go `int` values of `page` and `pageSize`, both list
handlers use a limit between 1 and 100 (a value outside that range is replaced
by 20), report a page of at least 1, and pass as offset `(page-1)*pageSize`
reduced to a 64-bit signed integer; the offset is the exact product and is
non-negative unless the product reaches `2^63`. -/
theorem paging_bounds (page pageSize : Int) (hp : isInt64 page) (hs : isInt64 pageSize) :
    GetMyWishesPaging page pageSize = GetPublicWishesPaging page pageSize ∧
    1 ≤ (GetPublicWishesPaging page pageSize).pageSize ∧
    (GetPublicWishesPaging page pageSize).pageSize ≤ 100 ∧
    (GetPublicWishesPaging page pageSize).pageSize =
      (if 1 ≤ pageSize ∧ pageSize ≤ 100 then pageSize else 20) ∧
    1 ≤ (GetPublicWishesPaging page pageSize).page ∧
    (GetPublicWishesPaging page pageSize).page = max page 1 ∧
    (GetPublicWishesPaging page pageSize).offset =
      wrapInt64 (((GetPublicWishesPaging page pageSize).page - 1) *
        (GetPublicWishesPaging page pageSize).pageSize) ∧
    (((GetPublicWishesPaging page pageSize).offset =
        ((GetPublicWishesPaging page pageSize).page - 1) *
          (GetPublicWishesPaging page pageSize).pageSize ∧
      0 ≤ (GetPublicWishesPaging page pageSize).offset) ∨
      2 ^ 63 ≤ ((GetPublicWishesPaging page pageSize).page - 1) *
        (GetPublicWishesPaging page pageSize).pageSize) := by
  obtain ⟨hp0, hp1⟩ := hp
  obtain ⟨_, _⟩ := hs
  have hpage : 1 ≤ (if page < 1 then 1 else page) := by split_ifs <;> omega
  have hpage2 : (if page < 1 then 1 else page) < 2 ^ 63 := by split_ifs <;> omega
  have hsz : 1 ≤ (if pageSize < 1 ∨ pageSize > 100 then 20 else pageSize) ∧
      (if pageSize < 1 ∨ pageSize > 100 then 20 else pageSize) ≤ 100 := by
    split_ifs <;> omega
  have hwrap : wrapInt64 ((if page < 1 then 1 else page) - 1) =
      (if page < 1 then 1 else page) - 1 :=
    wrapInt64_of_range _ (by omega) (by omega)
  simp only [GetPublicWishesPaging, GetMyWishesPaging, hwrap, true_and]
  refine ⟨hsz.1, hsz.2, ?_, hpage, ?_, ?_⟩
  · split_ifs <;> omega
  · split_ifs <;> omega
  · by_cases hov : 2 ^ 63 ≤ ((if page < 1 then 1 else page) - 1) *
        (if pageSize < 1 ∨ pageSize > 100 then 20 else pageSize)
    · exact Or.inr hov
    · left
      have hnn : 0 ≤ ((if page < 1 then 1 else page) - 1) *
          (if pageSize < 1 ∨ pageSize > 100 then 20 else pageSize) :=
        mul_nonneg (by omega) (by omega)
      rw [wrapInt64_of_range _ hnn (not_le.1 hov)]
      exact ⟨rfl, hnn⟩

theorem paging_bounds_witness :
    (isInt64 (-3) ∧ isInt64 500) ∧
    GetPublicWishesPaging (-3) 500 = ⟨1, 20, 0⟩ ∧
    GetMyWishesPaging (-3) 500 = GetPublicWishesPaging (-3) 500 ∧
    1 ≤ (GetPublicWishesPaging (-3) 500).pageSize :=
  ⟨⟨by decide, by decide⟩, by decide, (paging_bounds (-3) 500 (by decide) (by decide)).1,
   (paging_bounds (-3) 500 (by decide) (by decide)).2.1⟩

end WishWall
